import Mathlib

/-!
# metasearch-mcp-server: shallow embedding of `main.go`

`main.go` builds an engine registry from two providers, selects one engine,
registers twelve MCP tools whose handlers forward to the selected engine, and
runs the server.  The packages it imports (`metasearch`, `serper`, `serpapi`,
`mcp`, `encoding/json`) are external collaborators: their operations are taken
as parameters (`Env`), and engine methods are state transformers over an
arbitrary world `σ`, so that the calls a handler makes can be observed.
-/

namespace MetaSearchMCP

/-! ## Values crossing the boundary -/

/-- Go `error` values.  `wrap msg inner` is what `fmt.Errorf` builds for a
format containing `%w`: `Error()` is the formatted text and `Unwrap()` is the
operand of `%w`. -/
inductive GoError where
  | base (msg : String)
  | wrap (msg : String) (inner : GoError)
  deriving DecidableEq, Repr

/-- Go `err.Error()`. -/
def GoError.Error : GoError → String
  | .base msg => msg
  | .wrap msg _ => msg

/-- Go `errors.Unwrap(err)`. -/
def GoError.Unwrap : GoError → Option GoError
  | .base _ => none
  | .wrap _ inner => some inner

/-- Go `fmt.Errorf(pre + "%w", err)` where `pre` is the already formatted text
in front of the `%w` verb. -/
def Errorf (pre : String) (err : GoError) : GoError :=
  .wrap (pre ++ err.Error) err

/-- Go `context.Context`, identified by a tag. -/
structure Context where
  id : Nat
  deriving DecidableEq, Repr

/-- Go `*mcp.CallToolRequest`; the handlers of `main.go` never read it. -/
structure CallToolRequest where
  raw : String
  deriving DecidableEq, Repr

/-- Go `metasearch.SearchParams` (fields as the specification lists them). -/
structure SearchParams where
  query : String
  options : List (String × String)
  deriving DecidableEq, Repr

/-- Go `metasearch.ScrapeParams`. -/
structure ScrapeParams where
  url : String
  deriving DecidableEq, Repr

/-- Values that can sit in the `Data any` field of a search result.  `chan`
stands for the Go values `encoding/json` cannot serialise. -/
inductive GoValue where
  | null
  | bool (b : Bool)
  | int (n : Int)
  | str (s : String)
  | arr (xs : List GoValue)
  | obj (kvs : List (String × GoValue))
  | chan
  deriving Repr

/-- Go `metasearch.SearchResult` (fields as the specification lists them). -/
structure SearchResult where
  Data : GoValue
  sourceEngine : String
  sourceVersion : String
  deriving Repr

/-- The enumerated operation kinds of the specification. -/
inductive OperationKind where
  | WebSearch | NewsSearch | ImageSearch | VideoSearch | PlacesSearch
  | MapsSearch | ReviewsSearch | ShoppingSearch | ScholarSearch | LensSearch
  | AutocompleteSearch | WebpageScrape
  deriving DecidableEq, Repr

/-- What a Go call returning `(*SearchResult, error)` hands back: both
components, either of which may be nil. -/
abbrev MethodReturn := Option SearchResult × Option GoError

/-- An engine method taking parameters of type `α`: it acts on the world `σ`
(network traffic) and returns `(result, err)`. -/
abbrev EngineMethod (σ α : Type) := Context → α → σ → MethodReturn × σ

/-- Go `metasearch.Engine`: the methods `main.go` uses, plus the capability
query of the specification (`supports`), which `main.go` never calls. -/
structure Engine (σ : Type) where
  GetName : String
  GetVersion : String
  supports : OperationKind → Bool
  Search : EngineMethod σ SearchParams
  SearchNews : EngineMethod σ SearchParams
  SearchImages : EngineMethod σ SearchParams
  SearchVideos : EngineMethod σ SearchParams
  SearchPlaces : EngineMethod σ SearchParams
  SearchMaps : EngineMethod σ SearchParams
  SearchReviews : EngineMethod σ SearchParams
  SearchShopping : EngineMethod σ SearchParams
  SearchScholar : EngineMethod σ SearchParams
  SearchLens : EngineMethod σ SearchParams
  SearchAutocomplete : EngineMethod σ SearchParams
  ScrapeWebpage : EngineMethod σ ScrapeParams

/-! ## MCP server side -/

/-- Go `mcp.Content`; only `*mcp.TextContent` is produced. -/
inductive Content where
  | TextContent (Text : String)
  deriving DecidableEq, Repr

/-- Go `mcp.CallToolResult`. -/
structure CallToolResult where
  Content : List Content
  deriving DecidableEq, Repr

/-- Outcome of running a tool handler: the Go triple
`(*mcp.CallToolResult, any, error)`, or a run-time panic (nil dereference). -/
inductive HandlerOut where
  | returned (result : Option CallToolResult) (structured : Option GoValue)
      (err : Option GoError)
  | panicked
  deriving Repr

/-- A typed tool handler as passed to `mcp.AddTool`. -/
abbrev ToolHandlerFor (σ α : Type) :=
  Context → CallToolRequest → α → σ → HandlerOut × σ

/-- The two argument types `main.go` instantiates `mcp.AddTool` at. -/
inductive ToolHandler (σ : Type) where
  | search (h : ToolHandlerFor σ SearchParams)
  | scrape (h : ToolHandlerFor σ ScrapeParams)

/-- Go `mcp.Tool` together with the handler registered for it. -/
structure Tool (σ : Type) where
  Name : String
  Description : String
  handler : ToolHandler σ

/-- Go `*mcp.Server`: its implementation record and the tools added so far, in
the order of the `mcp.AddTool` calls. -/
structure Server (σ : Type) where
  Name : String
  Version : String
  tools : List (Tool σ)

/-- Go `mcp.NewServer(&mcp.Implementation{Name, Version}, nil)`. -/
def NewServer (σ : Type) (name version : String) : Server σ :=
  { Name := name, Version := version, tools := [] }

/-- Go `mcp.AddTool(server, tool, handler)`. -/
def AddTool {σ : Type} (server : Server σ) (tool : Tool σ) : Server σ :=
  { server with tools := server.tools ++ [tool] }

/-! ## External operations `main.go` is parameterised by -/

/-- The external functions called by `main.go`.  `R` is the registry type.
`MarshalIndent v pfx indent` returns Go's `([]byte, error)` pair with the byte
slice already converted by `string(...)` (a nil slice converts to `""`). -/
structure Env (σ R : Type) where
  NewRegistry : R
  Register : R → Engine σ → R
  List : R → List String
  serperNew : Except GoError (Engine σ)
  serpapiNew : Except GoError (Engine σ)
  GetDefaultEngine : R → Option (Engine σ) × Option GoError
  MarshalIndent : GoValue → String → String → String × Option GoError
  Run : Option GoError

/-! ## `main.go` -/

/-- The handler closure built inside `registerSearchTool` (lines 57-69). -/
def searchToolHandler {σ R : Type} (env : Env σ R) (toolName : String)
    (searchFunc : EngineMethod σ SearchParams) : ToolHandlerFor σ SearchParams :=
  fun ctx _req args s =>
    match searchFunc ctx args s with
    | ((result, err), s1) =>
      match err with
      | some e => (.returned none none (some (Errorf (toolName ++ " failed: ") e)), s1)
      | none =>
        match result with
        | none => (.panicked, s1)
        | some r =>
          let resultJSON := (env.MarshalIndent r.Data "" "  ").1
          (.returned (some { Content := [.TextContent resultJSON] }) none none, s1)

/-- The closure `registerSearchTool` of `main` (lines 53-70). -/
def registerSearchTool {σ R : Type} (env : Env σ R) (server : Server σ)
    (toolName description : String) (searchFunc : EngineMethod σ SearchParams) :
    Server σ :=
  AddTool server
    { Name := toolName, Description := description,
      handler := .search (searchToolHandler env toolName searchFunc) }

/-- The handler of the `webpage_scrape` tool (lines 89-101). -/
def scrapeHandler {σ R : Type} (env : Env σ R) (searchEngine : Engine σ) :
    ToolHandlerFor σ ScrapeParams :=
  fun ctx _req args s =>
    match searchEngine.ScrapeWebpage ctx args s with
    | ((result, err), s1) =>
      match err with
      | some e => (.returned none none (some (Errorf "scraping failed: " e)), s1)
      | none =>
        match result with
        | none => (.panicked, s1)
        | some r =>
          let resultJSON := (env.MarshalIndent r.Data "" "  ").1
          (.returned (some { Content := [.TextContent resultJSON] }) none none, s1)

/-- Lines 46-101 of `main`: create the server and register every tool on the
selected engine. -/
def registerTools {σ R : Type} (env : Env σ R) (searchEngine : Engine σ) : Server σ :=
  let server := NewServer σ "multi-search-server" "2.0.0"
  let server := registerSearchTool env server "google_search" "Perform a Google web search" searchEngine.Search
  let server := registerSearchTool env server "google_search_news" "Search for news articles using Google News" searchEngine.SearchNews
  let server := registerSearchTool env server "google_search_images" "Search for images using Google Images" searchEngine.SearchImages
  let server := registerSearchTool env server "google_search_videos" "Search for videos using Google Videos" searchEngine.SearchVideos
  let server := registerSearchTool env server "google_search_places" "Search for places using Google Places" searchEngine.SearchPlaces
  let server := registerSearchTool env server "google_search_maps" "Search for locations using Google Maps" searchEngine.SearchMaps
  let server := registerSearchTool env server "google_search_reviews" "Search for reviews" searchEngine.SearchReviews
  let server := registerSearchTool env server "google_search_shopping" "Search for products using Google Shopping" searchEngine.SearchShopping
  let server := registerSearchTool env server "google_search_scholar" "Search for academic papers using Google Scholar" searchEngine.SearchScholar
  let server := registerSearchTool env server "google_search_lens" "Perform visual search using Google Lens" searchEngine.SearchLens
  let server := registerSearchTool env server "google_search_autocomplete" "Get search suggestions using Google Autocomplete" searchEngine.SearchAutocomplete
  AddTool server
    { Name := "webpage_scrape", Description := "Scrape content from a webpage",
      handler := .scrape (scrapeHandler env searchEngine) }

/-- How the process ended. -/
inductive Exit where
  | fatal
  | returned
  deriving DecidableEq, Repr

/-- Everything observable about one run of `main`. -/
structure MainResult (σ R : Type) where
  logs : List String
  registered : List (Engine σ)
  registry : R
  selected : Option (Engine σ)
  tools : List (Tool σ)
  ran : Bool
  exit : Exit

/-- Lines 17-32 of `main`: the registry after both construction attempts, with
the log lines written and the arguments of the `Register` calls in order. -/
def buildRegistry {σ R : Type} (env : Env σ R) : R × List (Engine σ) × List String :=
  let registry := env.NewRegistry
  let (registry, registered, logs) :=
    match env.serperNew with
    | .ok serperEngine =>
      (env.Register registry serperEngine, [serperEngine], ["Registered Serper engine"])
    | .error err =>
      (registry, [], ["Failed to initialize Serper engine: " ++ err.Error])
  match env.serpapiNew with
  | .ok serpApiEngine =>
    (env.Register registry serpApiEngine, registered ++ [serpApiEngine],
      logs ++ ["Registered SerpAPI engine"])
  | .error err =>
    (registry, registered, logs ++ ["Failed to initialize SerpAPI engine: " ++ err.Error])

/-- Go `fmt` rendering of a `[]string` under `%v`. -/
def formatStrings (xs : List String) : String :=
  "[" ++ " ".intercalate xs ++ "]"

/-- The function `main` of `main.go`. -/
def main {σ R : Type} (env : Env σ R) : MainResult σ R :=
  match buildRegistry env with
  | (registry, registered, logs) =>
    match env.GetDefaultEngine registry with
    | (searchEngine, err) =>
      let logs :=
        match err with
        | some e => logs ++ ["Warning: " ++ e.Error]
        | none => logs
      match searchEngine with
      | none =>
        { logs := logs ++ ["No search engines available. Please ensure API keys are set."],
          registered := registered, registry := registry, selected := none,
          tools := [], ran := false, exit := .fatal }
      | some searchEngine =>
        let logs := logs ++
          ["Using search engine: " ++ searchEngine.GetName ++ " v" ++ searchEngine.GetVersion,
           "Available engines: " ++ formatStrings (env.List registry)]
        let server := registerTools env searchEngine
        let logs := logs ++
          ["Starting Multi-Search MCP Server with " ++ searchEngine.GetName ++ " engine..."]
        let logs :=
          match env.Run with
          | some e => logs ++ ["Server failed: " ++ e.Error]
          | none => logs
        { logs := logs, registered := registered, registry := registry,
          selected := some searchEngine, tools := server.tools, ran := true,
          exit := .returned }

/-! ## Observing calls -/

/-- The twelve methods of `metasearch.Engine` that `main.go` binds. -/
inductive Method where
  | Search | SearchNews | SearchImages | SearchVideos | SearchPlaces
  | SearchMaps | SearchReviews | SearchShopping | SearchScholar | SearchLens
  | SearchAutocomplete | ScrapeWebpage
  deriving DecidableEq, Repr

/-- Deserialised tool arguments, of either parameter type. -/
inductive Args where
  | search (p : SearchParams)
  | scrape (p : ScrapeParams)
  deriving DecidableEq, Repr

/-- Calling method `m` of engine `e` on arguments of the matching type; `none`
when the argument type is not the one the method takes. -/
def Engine.invoke {σ : Type} (e : Engine σ) :
    Method → Context → Args → σ → Option (MethodReturn × σ)
  | .Search, ctx, .search p, s => some (e.Search ctx p s)
  | .SearchNews, ctx, .search p, s => some (e.SearchNews ctx p s)
  | .SearchImages, ctx, .search p, s => some (e.SearchImages ctx p s)
  | .SearchVideos, ctx, .search p, s => some (e.SearchVideos ctx p s)
  | .SearchPlaces, ctx, .search p, s => some (e.SearchPlaces ctx p s)
  | .SearchMaps, ctx, .search p, s => some (e.SearchMaps ctx p s)
  | .SearchReviews, ctx, .search p, s => some (e.SearchReviews ctx p s)
  | .SearchShopping, ctx, .search p, s => some (e.SearchShopping ctx p s)
  | .SearchScholar, ctx, .search p, s => some (e.SearchScholar ctx p s)
  | .SearchLens, ctx, .search p, s => some (e.SearchLens ctx p s)
  | .SearchAutocomplete, ctx, .search p, s => some (e.SearchAutocomplete ctx p s)
  | .ScrapeWebpage, ctx, .scrape p, s => some (e.ScrapeWebpage ctx p s)
  | _, _, _, _ => none

/-- Invoking a registered tool: the transport hands the handler arguments of
the type it was registered with; `none` when the argument type does not fit. -/
def Tool.invoke {σ : Type} (t : Tool σ) :
    Context → CallToolRequest → Args → σ → Option (HandlerOut × σ) :=
  fun ctx req args s =>
    match t.handler, args with
    | .search h, .search p => some (h ctx req p s)
    | .scrape h, .scrape p => some (h ctx req p s)
    | _, _ => none

/-- One engine method call as seen from outside. -/
structure Call where
  engine : String
  method : Method
  ctx : Context
  args : Args
  deriving DecidableEq, Repr

/-- An engine over the world "log of calls made so far": each method appends
one record of itself and answers with `reply`. -/
def recordingEngine (name version : String) (supports : OperationKind → Bool)
    (reply : Method → Context → Args → MethodReturn) : Engine (List Call) :=
  let searchM (m : Method) : EngineMethod (List Call) SearchParams :=
    fun ctx p log => (reply m ctx (.search p), log ++ [⟨name, m, ctx, .search p⟩])
  { GetName := name, GetVersion := version, supports := supports,
    Search := searchM .Search,
    SearchNews := searchM .SearchNews,
    SearchImages := searchM .SearchImages,
    SearchVideos := searchM .SearchVideos,
    SearchPlaces := searchM .SearchPlaces,
    SearchMaps := searchM .SearchMaps,
    SearchReviews := searchM .SearchReviews,
    SearchShopping := searchM .SearchShopping,
    SearchScholar := searchM .SearchScholar,
    SearchLens := searchM .SearchLens,
    SearchAutocomplete := searchM .SearchAutocomplete,
    ScrapeWebpage := fun ctx p log =>
      (reply .ScrapeWebpage ctx (.scrape p), log ++ [⟨name, .ScrapeWebpage, ctx, .scrape p⟩]) }

/-! ## Tables of the specification -/

/-- The engine method each tool name stands for, as the tool table of the
contract lists it (tool name to method). -/
def boundMethod (toolName : String) : Option Method :=
  if toolName = "google_search" then some .Search
  else if toolName = "google_search_news" then some .SearchNews
  else if toolName = "google_search_images" then some .SearchImages
  else if toolName = "google_search_videos" then some .SearchVideos
  else if toolName = "google_search_places" then some .SearchPlaces
  else if toolName = "google_search_maps" then some .SearchMaps
  else if toolName = "google_search_reviews" then some .SearchReviews
  else if toolName = "google_search_shopping" then some .SearchShopping
  else if toolName = "google_search_scholar" then some .SearchScholar
  else if toolName = "google_search_lens" then some .SearchLens
  else if toolName = "google_search_autocomplete" then some .SearchAutocomplete
  else if toolName = "webpage_scrape" then some .ScrapeWebpage
  else none

/-- The tool name under which `main.go` publishes each operation kind. -/
def toolNameOf : OperationKind → String
  | .WebSearch => "google_search"
  | .NewsSearch => "google_search_news"
  | .ImageSearch => "google_search_images"
  | .VideoSearch => "google_search_videos"
  | .PlacesSearch => "google_search_places"
  | .MapsSearch => "google_search_maps"
  | .ReviewsSearch => "google_search_reviews"
  | .ShoppingSearch => "google_search_shopping"
  | .ScholarSearch => "google_search_scholar"
  | .LensSearch => "google_search_lens"
  | .AutocompleteSearch => "google_search_autocomplete"
  | .WebpageScrape => "webpage_scrape"

/-- The optional operation kinds: all but `WebSearch` and `WebpageScrape`. -/
def OperationKind.isOptional : OperationKind → Bool
  | .WebSearch => false
  | .WebpageScrape => false
  | _ => true

/-- The tool names published by `main`, in registration order. -/
def toolNames : List String :=
  ["google_search", "google_search_news", "google_search_images",
   "google_search_videos", "google_search_places", "google_search_maps",
   "google_search_reviews", "google_search_shopping", "google_search_scholar",
   "google_search_lens", "google_search_autocomplete", "webpage_scrape"]

/-- The engines whose construction succeeded, in the order attempted. -/
def successes {σ : Type} : List (Except GoError (Engine σ)) → List (Engine σ)
  | [] => []
  | .ok e :: rest => e :: successes rest
  | .error _ :: rest => successes rest

/-- The engine `main` obtains from selection (line 35), if any. -/
def selectedEngine {σ R : Type} (env : Env σ R) : Option (Engine σ) :=
  (env.GetDefaultEngine (buildRegistry env).1).1

/-- Text `t` occurs inside text `s`. -/
def containsText (s t : String) : Prop := t.data <:+: s.data

instance (s t : String) : Decidable (containsText s t) := by
  unfold containsText
  infer_instance

/-! ## A concrete environment -/

/-- Modelled from the spec: `Registry.Register` of the external `metasearch`
package adds the engine, or replaces the one registered under the same name. -/
def specRegister {σ : Type} (reg : List (Engine σ)) (e : Engine σ) : List (Engine σ) :=
  if reg.any (fun x => x.GetName == e.GetName) then
    reg.map (fun x => if x.GetName == e.GetName then e else x)
  else reg ++ [e]

/-- Modelled from the spec: `Registry.List` of the external `metasearch`
package gives the engine names in registration order. -/
def specList {σ : Type} (reg : List (Engine σ)) : List String :=
  reg.map (fun x => x.GetName)

/-- Modelled from the spec: the selector of the external `metasearch` package
with no preference given; the first registered engine, or the error
`NoEngineAvailable` on an empty registry. -/
def specGetDefaultEngine {σ : Type} (reg : List (Engine σ)) :
    Option (Engine σ) × Option GoError :=
  match reg with
  | [] => (none, some (.base "NoEngineAvailable"))
  | e :: _ => (some e, none)

/-- A small stand-in for `json.MarshalIndent` on scalars: a string is quoted,
an unsupported value gives nil bytes and an error, anything else prints as
`null`. -/
def sampleMarshalIndent (v : GoValue) (_pfx _indent : String) : String × Option GoError :=
  match v with
  | .str s => ("\"" ++ s ++ "\"", none)
  | .chan => ("", some (.base "json: unsupported type: chan int"))
  | _ => ("null", none)

/-- The environment in which the two constructors behave as given and the
registry and selector are those of the specification. -/
def sampleEnv (serper serpapi : Except GoError (Engine (List Call))) :
    Env (List Call) (List (Engine (List Call))) :=
  { NewRegistry := [], Register := specRegister, List := specList,
    serperNew := serper, serpapiNew := serpapi,
    GetDefaultEngine := specGetDefaultEngine,
    MarshalIndent := sampleMarshalIndent, Run := none }

/-- Reply of the sample Serper engine: an empty URL fails, a query `"chan"`
yields unserialisable data, a query `"nil"` yields neither result nor error,
everything else yields the text `ok`. -/
def sampleReply : Method → Context → Args → MethodReturn
  | _, _, .scrape p =>
    if p.url = "" then (none, some (.base "boom"))
    else (some ⟨.str "page", "serper", "1.0.0"⟩, none)
  | _, _, .search p =>
    if p.query = "chan" then (some ⟨.chan, "serper", "1.0.0"⟩, none)
    else if p.query = "nil" then (none, none)
    else if p.query = "fail" then (none, some (.base "upstream"))
    else (some ⟨.str "ok", "serper", "1.0.0"⟩, none)

/-- A Serper engine that supports web search and scraping only. -/
def sampleSerper : Engine (List Call) :=
  recordingEngine "serper" "1.0.0"
    (fun k => k == .WebSearch || k == .WebpageScrape) sampleReply

/-- A SerpAPI engine that supports everything. -/
def sampleSerpApi : Engine (List Call) :=
  recordingEngine "serpapi" "1.0.0" (fun _ => true) sampleReply

/-- The argument type a method takes. -/
def Method.takes : Method → Args → Bool
  | .ScrapeWebpage, .scrape _ => true
  | .ScrapeWebpage, .search _ => false
  | _, .search _ => true
  | _, .scrape _ => false

/-- A run in which both providers are constructed. -/
def sampleBoth : Env (List Call) (List (Engine (List Call))) :=
  sampleEnv (.ok sampleSerper) (.ok sampleSerpApi)

/-- A run in which only SerpAPI is constructed. -/
def sampleSerpApiOnly : Env (List Call) (List (Engine (List Call))) :=
  sampleEnv (.error (.base "SERPER_API_KEY is not set")) (.ok sampleSerpApi)

/-- A run in which no provider is constructed. -/
def sampleNeither : Env (List Call) (List (Engine (List Call))) :=
  sampleEnv (.error (.base "SERPER_API_KEY is not set"))
    (.error (.base "SERPAPI_API_KEY is not set"))

/-- The `google_search` tool of the run `sampleBoth`. -/
def sampleSearchTool : Tool (List Call) :=
  { Name := "google_search", Description := "Perform a Google web search",
    handler := .search (searchToolHandler sampleBoth "google_search" sampleSerper.Search) }

/-- The `webpage_scrape` tool of the run `sampleBoth`. -/
def sampleScrapeTool : Tool (List Call) :=
  { Name := "webpage_scrape", Description := "Scrape content from a webpage",
    handler := .scrape (scrapeHandler sampleBoth sampleSerper) }

/-! ## What a handler makes of a method's return -/

/-- The text a handler puts in front of the engine error: the tool name for
the tools registered through `registerSearchTool` (line 60), the literal of
line 92 for `webpage_scrape`. -/
def errorLead (toolName : String) : String :=
  if toolName = "webpage_scrape" then "scraping failed: " else toolName ++ " failed: "

/-- The handler outcome for a given return of the engine method (lines 59-68
and 91-100). -/
def respond {σ R : Type} (env : Env σ R) (toolName : String) : MethodReturn → HandlerOut
  | (_, some e) => .returned none none (some (Errorf (errorLead toolName) e))
  | (none, none) => .panicked
  | (some r, none) =>
    .returned (some { Content := [.TextContent (env.MarshalIndent r.Data "" "  ").1] }) none none

/-! ## Structure of a run -/

/-- The tools registered on a selected engine, written out. -/
theorem registerTools_tools {σ R : Type} (env : Env σ R) (e : Engine σ) :
    (registerTools env e).tools =
      [ ⟨"google_search", "Perform a Google web search",
          .search (searchToolHandler env "google_search" e.Search)⟩,
        ⟨"google_search_news", "Search for news articles using Google News",
          .search (searchToolHandler env "google_search_news" e.SearchNews)⟩,
        ⟨"google_search_images", "Search for images using Google Images",
          .search (searchToolHandler env "google_search_images" e.SearchImages)⟩,
        ⟨"google_search_videos", "Search for videos using Google Videos",
          .search (searchToolHandler env "google_search_videos" e.SearchVideos)⟩,
        ⟨"google_search_places", "Search for places using Google Places",
          .search (searchToolHandler env "google_search_places" e.SearchPlaces)⟩,
        ⟨"google_search_maps", "Search for locations using Google Maps",
          .search (searchToolHandler env "google_search_maps" e.SearchMaps)⟩,
        ⟨"google_search_reviews", "Search for reviews",
          .search (searchToolHandler env "google_search_reviews" e.SearchReviews)⟩,
        ⟨"google_search_shopping", "Search for products using Google Shopping",
          .search (searchToolHandler env "google_search_shopping" e.SearchShopping)⟩,
        ⟨"google_search_scholar", "Search for academic papers using Google Scholar",
          .search (searchToolHandler env "google_search_scholar" e.SearchScholar)⟩,
        ⟨"google_search_lens", "Perform visual search using Google Lens",
          .search (searchToolHandler env "google_search_lens" e.SearchLens)⟩,
        ⟨"google_search_autocomplete", "Get search suggestions using Google Autocomplete",
          .search (searchToolHandler env "google_search_autocomplete" e.SearchAutocomplete)⟩,
        ⟨"webpage_scrape", "Scrape content from a webpage",
          .scrape (scrapeHandler env e)⟩ ] := by
  rfl

/-- When selection yields an engine, `main` publishes the tools registered on
it and runs the server. -/
theorem main_of_selected {σ R : Type} (env : Env σ R) (e : Engine σ)
    (h : selectedEngine env = some e) :
    (main env).tools = (registerTools env e).tools ∧ (main env).selected = some e ∧
      (main env).ran = true ∧ (main env).exit = .returned := by
  unfold selectedEngine at h
  rcases hb : buildRegistry env with ⟨registry, registered, logs⟩
  rw [hb] at h
  rcases hg : env.GetDefaultEngine registry with ⟨eng, err⟩
  rw [hg] at h
  simp only at h
  subst h
  simp [main, hb, hg]

/-- When selection yields no engine, `main` stops in the fatal branch. -/
theorem main_of_not_selected {σ R : Type} (env : Env σ R)
    (h : selectedEngine env = none) :
    (main env).tools = [] ∧ (main env).selected = none ∧
      (main env).ran = false ∧ (main env).exit = .fatal := by
  unfold selectedEngine at h
  rcases hb : buildRegistry env with ⟨registry, registered, logs⟩
  rw [hb] at h
  rcases hg : env.GetDefaultEngine registry with ⟨eng, err⟩
  rw [hg] at h
  simp only at h
  subst h
  simp [main, hb, hg]

/-- The registry and the `Register` trace of `main` are those of lines 17-32. -/
theorem main_registry {σ R : Type} (env : Env σ R) :
    (main env).registry = (buildRegistry env).1 ∧
      (main env).registered = (buildRegistry env).2.1 ∧
      (main env).selected = selectedEngine env := by
  unfold selectedEngine
  rcases hb : buildRegistry env with ⟨registry, registered, logs⟩
  rcases hg : env.GetDefaultEngine registry with ⟨eng, err⟩
  cases eng <;> simp [main, hb, hg]

/-! ## Handlers -/

/-- The search handler makes the one call `searchFunc ctx args` and maps its
return by `respond`. -/
theorem searchToolHandler_eq {σ R : Type} (env : Env σ R) (toolName : String)
    (hname : toolName ≠ "webpage_scrape")
    (searchFunc : EngineMethod σ SearchParams) (ctx : Context) (req : CallToolRequest)
    (args : SearchParams) (s : σ) :
    searchToolHandler env toolName searchFunc ctx req args s =
      (respond env toolName (searchFunc ctx args s).1, (searchFunc ctx args s).2) := by
  unfold searchToolHandler respond errorLead
  rcases searchFunc ctx args s with ⟨⟨result, err⟩, s1⟩
  cases err <;> cases result <;> simp [hname]

/-- The scrape handler makes the one call `ScrapeWebpage ctx args` and maps its
return by `respond`. -/
theorem scrapeHandler_eq {σ R : Type} (env : Env σ R) (e : Engine σ) (ctx : Context)
    (req : CallToolRequest) (args : ScrapeParams) (s : σ) :
    scrapeHandler env e ctx req args s =
      (respond env "webpage_scrape" (e.ScrapeWebpage ctx args s).1,
        (e.ScrapeWebpage ctx args s).2) := by
  unfold scrapeHandler respond errorLead
  rcases e.ScrapeWebpage ctx args s with ⟨⟨result, err⟩, s1⟩
  cases err <;> cases result <;> simp

/-- Every tool registered on `e` is bound to the method `boundMethod` names:
invoking the tool is invoking that method of `e` once, on the same context and
arguments, and mapping its return by `respond`. -/
theorem registerTools_invoke {σ R : Type} (env : Env σ R) (e : Engine σ) (t : Tool σ)
    (ht : t ∈ (registerTools env e).tools) :
    ∃ m, boundMethod t.Name = some m ∧
      ∀ (ctx : Context) (req : CallToolRequest) (args : Args) (s : σ),
        t.invoke ctx req args s =
          (e.invoke m ctx args s).map (fun r => (respond env t.Name r.1, r.2)) := by
  rw [registerTools_tools] at ht
  simp only [List.mem_cons, List.mem_singleton, List.not_mem_nil, or_false] at ht
  rcases ht with rfl | rfl | rfl | rfl | rfl | rfl | rfl | rfl | rfl | rfl | rfl | rfl
  · refine ⟨.Search, by dsimp only; decide, ?_⟩
    intro ctx req args s
    cases args <;> simp [Tool.invoke, Engine.invoke, searchToolHandler_eq]
  · refine ⟨.SearchNews, by dsimp only; decide, ?_⟩
    intro ctx req args s
    cases args <;> simp [Tool.invoke, Engine.invoke, searchToolHandler_eq]
  · refine ⟨.SearchImages, by dsimp only; decide, ?_⟩
    intro ctx req args s
    cases args <;> simp [Tool.invoke, Engine.invoke, searchToolHandler_eq]
  · refine ⟨.SearchVideos, by dsimp only; decide, ?_⟩
    intro ctx req args s
    cases args <;> simp [Tool.invoke, Engine.invoke, searchToolHandler_eq]
  · refine ⟨.SearchPlaces, by dsimp only; decide, ?_⟩
    intro ctx req args s
    cases args <;> simp [Tool.invoke, Engine.invoke, searchToolHandler_eq]
  · refine ⟨.SearchMaps, by dsimp only; decide, ?_⟩
    intro ctx req args s
    cases args <;> simp [Tool.invoke, Engine.invoke, searchToolHandler_eq]
  · refine ⟨.SearchReviews, by dsimp only; decide, ?_⟩
    intro ctx req args s
    cases args <;> simp [Tool.invoke, Engine.invoke, searchToolHandler_eq]
  · refine ⟨.SearchShopping, by dsimp only; decide, ?_⟩
    intro ctx req args s
    cases args <;> simp [Tool.invoke, Engine.invoke, searchToolHandler_eq]
  · refine ⟨.SearchScholar, by dsimp only; decide, ?_⟩
    intro ctx req args s
    cases args <;> simp [Tool.invoke, Engine.invoke, searchToolHandler_eq]
  · refine ⟨.SearchLens, by dsimp only; decide, ?_⟩
    intro ctx req args s
    cases args <;> simp [Tool.invoke, Engine.invoke, searchToolHandler_eq]
  · refine ⟨.SearchAutocomplete, by dsimp only; decide, ?_⟩
    intro ctx req args s
    cases args <;> simp [Tool.invoke, Engine.invoke, searchToolHandler_eq]
  · refine ⟨.ScrapeWebpage, by dsimp only; decide, ?_⟩
    intro ctx req args s
    cases args <;> simp [Tool.invoke, Engine.invoke, scrapeHandler_eq]

/-- The names of the tools registered on any engine. -/
theorem registerTools_names {σ R : Type} (env : Env σ R) (e : Engine σ) :
    (registerTools env e).tools.map (fun t => t.Name) = toolNames := by
  rfl

/-- A run that does not end in the fatal branch selected an engine. -/
theorem selected_of_returned {σ R : Type} (env : Env σ R)
    (h : (main env).exit = .returned) : ∃ e, selectedEngine env = some e := by
  cases hs : selectedEngine env with
  | none =>
    have := (main_of_not_selected env hs).2.2.2
    rw [this] at h
    cases h
  | some e => exact ⟨e, rfl⟩

/-- The search tool is the first tool of the sample run. -/
theorem sampleSearchTool_mem : sampleSearchTool ∈ (main sampleBoth).tools :=
  List.Mem.head _

/-- The scrape tool is the last tool of the sample run. -/
theorem sampleScrapeTool_mem : sampleScrapeTool ∈ (main sampleBoth).tools := by
  rw [(main_of_selected sampleBoth sampleSerper rfl).1, registerTools_tools]
  simp [sampleScrapeTool]

/-! ## Startup -/

/-- C8: for each outcome of the two constructions, the engines passed to
`Register` before selection are exactly the successfully constructed ones among
[Serper, SerpAPI], in that order; the registry handed to selection is
`NewRegistry` with those registered in turn; selection is always reached, and
the run is fatal only when selection yields no engine. -/
theorem registered_are_successes_in_order {σ R : Type} (env : Env σ R) :
    (main env).registered = successes [env.serperNew, env.serpapiNew] ∧
      (main env).registry = (main env).registered.foldl env.Register env.NewRegistry ∧
      (main env).selected = (env.GetDefaultEngine (main env).registry).1 ∧
      ((main env).exit = .fatal ↔ (env.GetDefaultEngine (main env).registry).1 = none) := by
  have hreg := main_registry env
  have hb : (buildRegistry env).2.1 = successes [env.serperNew, env.serpapiNew] ∧
      (buildRegistry env).1 =
        (successes [env.serperNew, env.serpapiNew]).foldl env.Register env.NewRegistry := by
    unfold buildRegistry
    cases env.serperNew <;> cases env.serpapiNew <;> simp [successes]
  refine ⟨hreg.2.1.trans hb.1, ?_, ?_, ?_⟩
  · rw [hreg.1, hreg.2.1, hb.1]
    exact hb.2
  · rw [hreg.1, hreg.2.2]
    rfl
  · rw [hreg.1]
    show (main env).exit = .fatal ↔ selectedEngine env = none
    cases hs : selectedEngine env with
    | none => simp [(main_of_not_selected env hs).2.2.2]
    | some e => simp [(main_of_selected env e hs).2.2.2]

/-- C6: whenever selection yields no engine, whatever error accompanies it,
`main` ends in the fatal branch with no tool published and the server never
run; and when neither provider was constructed the registry handed to
selection is the empty `NewRegistry`. -/
theorem no_engine_is_fatal {σ R : Type} (env : Env σ R)
    (hnone : (env.GetDefaultEngine (main env).registry).1 = none) :
    (main env).exit = .fatal ∧ (main env).tools = [] ∧ (main env).ran = false ∧
      (successes [env.serperNew, env.serpapiNew] = [] →
        (main env).registered = [] ∧ (main env).registry = env.NewRegistry) := by
  have hreg := main_registry env
  have hs : selectedEngine env = none := by
    rw [hreg.1] at hnone
    exact hnone
  have hf := main_of_not_selected env hs
  refine ⟨hf.2.2.2, hf.1, hf.2.2.1, ?_⟩
  intro hsucc
  rw [hreg.1, hreg.2.1]
  unfold buildRegistry
  revert hsucc
  cases env.serperNew <;> cases env.serpapiNew <;> simp [successes]

/-- Witness of C6: with both constructors failing and the selector of the
specification, the run is fatal. -/
theorem no_engine_is_fatal_witness :
    (sampleNeither.GetDefaultEngine (main sampleNeither).registry).1 = none ∧
      (main sampleNeither).exit = .fatal ∧ (main sampleNeither).tools = [] ∧
      (main sampleNeither).ran = false ∧
      (successes [sampleNeither.serperNew, sampleNeither.serpapiNew] = [] →
        (main sampleNeither).registered = [] ∧
          (main sampleNeither).registry = sampleNeither.NewRegistry) :=
  ⟨rfl, no_engine_is_fatal sampleNeither rfl⟩

/-! ## The catalog -/

/-- C9: any two runs that reach tool registration publish the same catalog:
the twelve names below, in this order, pairwise distinct, whatever engine was
selected and whatever engines were registered. -/
theorem catalog_is_fixed {σ₁ R₁ σ₂ R₂ : Type} (env₁ : Env σ₁ R₁) (env₂ : Env σ₂ R₂)
    (h₁ : (main env₁).exit = .returned) (h₂ : (main env₂).exit = .returned) :
    (main env₁).tools.map (fun t => t.Name) =
        ["google_search", "google_search_news", "google_search_images",
         "google_search_videos", "google_search_places", "google_search_maps",
         "google_search_reviews", "google_search_shopping", "google_search_scholar",
         "google_search_lens", "google_search_autocomplete", "webpage_scrape"] ∧
      (main env₂).tools.map (fun t => t.Name) = (main env₁).tools.map (fun t => t.Name) ∧
      ((main env₁).tools.map (fun t => t.Name)).Nodup ∧
      (main env₁).tools.length = 12 := by
  obtain ⟨e₁, hs₁⟩ := selected_of_returned env₁ h₁
  obtain ⟨e₂, hs₂⟩ := selected_of_returned env₂ h₂
  rw [(main_of_selected env₁ e₁ hs₁).1, (main_of_selected env₂ e₂ hs₂).1,
    registerTools_names, registerTools_names]
  refine ⟨rfl, rfl, by decide, ?_⟩
  rw [registerTools_tools]
  rfl

/-- Witness of C9: a run selecting Serper and a run selecting SerpAPI publish
the same twelve names. -/
theorem catalog_is_fixed_witness :
    (main sampleBoth).exit = .returned ∧ (main sampleSerpApiOnly).exit = .returned ∧
      (main sampleBoth).tools.map (fun t => t.Name) =
        ["google_search", "google_search_news", "google_search_images",
         "google_search_videos", "google_search_places", "google_search_maps",
         "google_search_reviews", "google_search_shopping", "google_search_scholar",
         "google_search_lens", "google_search_autocomplete", "webpage_scrape"] ∧
      (main sampleSerpApiOnly).tools.map (fun t => t.Name) =
        (main sampleBoth).tools.map (fun t => t.Name) ∧
      ((main sampleBoth).tools.map (fun t => t.Name)).Nodup ∧
      (main sampleBoth).tools.length = 12 :=
  ⟨rfl, rfl, catalog_is_fixed sampleBoth sampleSerpApiOnly rfl rfl⟩

/-- C1 (the code at a failing input): the selected engine does not support
news search, yet the tool for news search is in the published catalog. -/
theorem unsupported_kind_still_published :
    (main sampleBoth).exit = .returned ∧
      (main sampleBoth).selected.map (fun e => e.GetName) = some "serper" ∧
      (main sampleBoth).selected.map (fun e => e.supports .NewsSearch) = some false ∧
      OperationKind.NewsSearch.isOptional = true ∧
      toolNameOf .NewsSearch ∈ (main sampleBoth).tools.map (fun t => t.Name) := by
  refine ⟨rfl, rfl, rfl, rfl, ?_⟩
  decide

/-- Every operation kind has its tool in the catalog of every run that
selected an engine, whether or not the engine supports the kind. -/
theorem every_kind_published {σ R : Type} (env : Env σ R) (e : Engine σ)
    (hsel : selectedEngine env = some e) (k : OperationKind) :
    toolNameOf k ∈ (main env).tools.map (fun t => t.Name) := by
  rw [(main_of_selected env e hsel).1, registerTools_names]
  cases k <;> decide

/-- C7 (counterexample): in a run that selected an engine no published tool is
named `web_search`. -/
theorem no_tool_named_web_search :
    (main sampleBoth).exit = .returned ∧
      ((main sampleBoth).tools.map (fun t => t.Name)).contains "web_search" = false := by
  refine ⟨rfl, ?_⟩
  decide

/-- C7 (amended): for every selected engine the catalog contains a tool named
`google_search` whose handler is the search handler closed over the engine's
`Search` method, and a tool named `webpage_scrape` whose handler is the scrape
handler over the engine's `ScrapeWebpage`; each handler changes the world
exactly as one call of that method does. -/
theorem search_and_scrape_always_published {σ R : Type} (env : Env σ R) (e : Engine σ)
    (hsel : selectedEngine env = some e) :
    (∃ t ∈ (main env).tools, t.Name = "google_search" ∧
        t.handler = .search (searchToolHandler env "google_search" e.Search) ∧
        ∀ ctx req p s, t.invoke ctx req (.search p) s =
          some (respond env "google_search" (e.Search ctx p s).1, (e.Search ctx p s).2)) ∧
      (∃ t ∈ (main env).tools, t.Name = "webpage_scrape" ∧
        t.handler = .scrape (scrapeHandler env e) ∧
        ∀ ctx req p s, t.invoke ctx req (.scrape p) s =
          some (respond env "webpage_scrape" (e.ScrapeWebpage ctx p s).1,
            (e.ScrapeWebpage ctx p s).2)) := by
  rw [(main_of_selected env e hsel).1, registerTools_tools]
  constructor
  · refine ⟨⟨"google_search", "Perform a Google web search",
      .search (searchToolHandler env "google_search" e.Search)⟩, by simp, rfl, rfl, ?_⟩
    intro ctx req p s
    simp [Tool.invoke, searchToolHandler_eq]
  · refine ⟨⟨"webpage_scrape", "Scrape content from a webpage",
      .scrape (scrapeHandler env e)⟩, by simp, rfl, rfl, ?_⟩
    intro ctx req p s
    simp [Tool.invoke, scrapeHandler_eq]

/-- Witness of C7 (amended): the run `sampleBoth`, which selected Serper. -/
theorem search_and_scrape_always_published_witness :
    selectedEngine sampleBoth = some sampleSerper ∧
      (∃ t ∈ (main sampleBoth).tools, t.Name = "google_search" ∧
        t.handler = .search (searchToolHandler sampleBoth "google_search" sampleSerper.Search) ∧
        ∀ ctx req p s, t.invoke ctx req (.search p) s =
          some (respond sampleBoth "google_search" (sampleSerper.Search ctx p s).1,
            (sampleSerper.Search ctx p s).2)) ∧
      (∃ t ∈ (main sampleBoth).tools, t.Name = "webpage_scrape" ∧
        t.handler = .scrape (scrapeHandler sampleBoth sampleSerper) ∧
        ∀ ctx req p s, t.invoke ctx req (.scrape p) s =
          some (respond sampleBoth "webpage_scrape" (sampleSerper.ScrapeWebpage ctx p s).1,
            (sampleSerper.ScrapeWebpage ctx p s).2)) :=
  ⟨rfl, search_and_scrape_always_published sampleBoth sampleSerper rfl⟩

/-! ## Invocation -/

/-- A recording engine answers a well-typed call with `reply` and appends
exactly one record of the call. -/
theorem recordingEngine_invoke (name version : String) (supports : OperationKind → Bool)
    (reply : Method → Context → Args → MethodReturn) (m : Method) (ctx : Context)
    (args : Args) (log : List Call) :
    (recordingEngine name version supports reply).invoke m ctx args log =
      if m.takes args then some (reply m ctx args, log ++ [⟨name, m, ctx, args⟩])
      else none := by
  cases m <;> cases args <;> rfl

/-- A tool of a run that selected `e` is a tool registered on `e`. -/
theorem mem_registerTools_of_mem_main {σ R : Type} (env : Env σ R) (e : Engine σ)
    (hsel : selectedEngine env = some e) (t : Tool σ) (ht : t ∈ (main env).tools) :
    t ∈ (registerTools env e).tools := by
  rw [(main_of_selected env e hsel).1] at ht
  exact ht

/-- C2: with the selected engine recording its calls, invoking any published
tool on context `ctx` and arguments `args` appends exactly one record to the
call log: the selected engine, the method the tool name stands for, and `ctx`
and `args` as they were passed; the invocation is defined exactly when the
arguments have the type that method takes. -/
theorem tool_invocation_is_one_bound_call {R : Type} (env : Env (List Call) R)
    (name version : String) (supports : OperationKind → Bool)
    (reply : Method → Context → Args → MethodReturn)
    (hsel : selectedEngine env = some (recordingEngine name version supports reply))
    (t : Tool (List Call)) (ht : t ∈ (main env).tools)
    (ctx : Context) (req : CallToolRequest) (args : Args) (log : List Call) :
    ∃ m, boundMethod t.Name = some m ∧
      (t.invoke ctx req args log).isSome = m.takes args ∧
      ∀ out log1, t.invoke ctx req args log = some (out, log1) →
        log1 = log ++ [⟨name, m, ctx, args⟩] := by
  obtain ⟨m, hm, hinv⟩ :=
    registerTools_invoke env _ t (mem_registerTools_of_mem_main env _ hsel t ht)
  refine ⟨m, hm, ?_, ?_⟩
  · rw [hinv, recordingEngine_invoke]
    cases m.takes args <;> simp
  · intro out log1 h
    rw [hinv, recordingEngine_invoke] at h
    cases htk : m.takes args
    · simp [htk] at h
    · simp [htk] at h
      exact h.2.symm

/-- Witness of C2: `google_search` in the run `sampleBoth`, invoked after one
earlier call, adds the one record of `Search`. -/
theorem tool_invocation_is_one_bound_call_witness :
    selectedEngine sampleBoth =
        some (recordingEngine "serper" "1.0.0"
          (fun k => k == .WebSearch || k == .WebpageScrape) sampleReply) ∧
      sampleSearchTool ∈ (main sampleBoth).tools ∧
      ∃ m, boundMethod sampleSearchTool.Name = some m ∧
        (sampleSearchTool.invoke ⟨7⟩ ⟨"req"⟩ (.search ⟨"lean", []⟩)
          [⟨"serper", .SearchNews, ⟨1⟩, .search ⟨"old", []⟩⟩]).isSome
          = m.takes (.search ⟨"lean", []⟩) ∧
        ∀ out log1,
          sampleSearchTool.invoke ⟨7⟩ ⟨"req"⟩ (.search ⟨"lean", []⟩)
            [⟨"serper", .SearchNews, ⟨1⟩, .search ⟨"old", []⟩⟩] = some (out, log1) →
          log1 = [⟨"serper", .SearchNews, ⟨1⟩, .search ⟨"old", []⟩⟩] ++
            [⟨"serper", m, ⟨7⟩, .search ⟨"lean", []⟩⟩] :=
  ⟨rfl, sampleSearchTool_mem,
    tool_invocation_is_one_bound_call sampleBoth "serper" "1.0.0"
      (fun k => k == .WebSearch || k == .WebpageScrape) sampleReply rfl
      sampleSearchTool sampleSearchTool_mem ⟨7⟩ ⟨"req"⟩ (.search ⟨"lean", []⟩)
      [⟨"serper", .SearchNews, ⟨1⟩, .search ⟨"old", []⟩⟩]⟩

/-- C4: when the method a published tool is bound to returns a result `r` and
no error, the handler returns a call result whose content is the single text
item `string(resultJSON)`, `resultJSON` being what `json.MarshalIndent(r.Data,
"", "  ")` returned, together with a nil error; nothing of `r` but `Data`
occurs in the response. -/
theorem success_response_is_marshalled_data {σ R : Type} (env : Env σ R) (e : Engine σ)
    (hsel : selectedEngine env = some e) (t : Tool σ) (ht : t ∈ (main env).tools)
    (m : Method) (hm : boundMethod t.Name = some m)
    (ctx : Context) (req : CallToolRequest) (args : Args) (s s1 : σ) (r : SearchResult)
    (hcall : e.invoke m ctx args s = some ((some r, none), s1)) :
    t.invoke ctx req args s =
      some (.returned
        (some { Content := [.TextContent (env.MarshalIndent r.Data "" "  ").1] })
        none none, s1) := by
  obtain ⟨m1, hm1, hinv⟩ :=
    registerTools_invoke env e t (mem_registerTools_of_mem_main env e hsel t ht)
  rw [hm] at hm1
  cases hm1
  rw [hinv, hcall]
  rfl

/-- Witness of C4: `google_search` in the run `sampleBoth` on the query
`lean`. -/
theorem success_response_is_marshalled_data_witness :
    selectedEngine sampleBoth = some sampleSerper ∧
      sampleSearchTool ∈ (main sampleBoth).tools ∧
      boundMethod sampleSearchTool.Name = some .Search ∧
      sampleSerper.invoke .Search ⟨7⟩ (.search ⟨"lean", []⟩) [] =
        some ((some ⟨.str "ok", "serper", "1.0.0"⟩, none),
          [⟨"serper", .Search, ⟨7⟩, .search ⟨"lean", []⟩⟩]) ∧
      sampleSearchTool.invoke ⟨7⟩ ⟨"req"⟩ (.search ⟨"lean", []⟩) [] =
        some (.returned
          (some { Content := [.TextContent
            (sampleBoth.MarshalIndent (GoValue.str "ok") "" "  ").1] })
          none none, [⟨"serper", .Search, ⟨7⟩, .search ⟨"lean", []⟩⟩]) :=
  ⟨rfl, sampleSearchTool_mem, by decide, rfl,
    success_response_is_marshalled_data sampleBoth sampleSerper rfl sampleSearchTool
      sampleSearchTool_mem .Search (by decide) ⟨7⟩ ⟨"req"⟩ (.search ⟨"lean", []⟩) []
      [⟨"serper", .Search, ⟨7⟩, .search ⟨"lean", []⟩⟩]
      ⟨.str "ok", "serper", "1.0.0"⟩ rfl⟩

/-! ## Errors -/

/-- The tool name `webpage_scrape` stands for `ScrapeWebpage` only. -/
theorem name_ne_scrape_of_bound {name : String} {m : Method}
    (hm : boundMethod name = some m) (hsearch : m ≠ .ScrapeWebpage) :
    name ≠ "webpage_scrape" := by
  intro h
  subst h
  have h2 : boundMethod "webpage_scrape" = some .ScrapeWebpage := by decide
  rw [h2] at hm
  cases hm
  exact hsearch rfl

/-- A text led by `name` contains `name`. -/
theorem containsText_lead (name rest : String) : containsText (name ++ rest) name := by
  unfold containsText
  rw [String.data_append]
  exact ⟨[], rest.data, by simp⟩

/-- When the bound method returns an error `e`, every published tool returns no
result and an error that unwraps to `e`, whose message is `errorLead` of the
tool name followed by the message of `e`; for the tools bound to a search
method that message contains the tool name. -/
theorem error_is_wrapped {σ R : Type} (env : Env σ R) (e : Engine σ)
    (hsel : selectedEngine env = some e) (t : Tool σ) (ht : t ∈ (main env).tools)
    (m : Method) (hm : boundMethod t.Name = some m)
    (ctx : Context) (req : CallToolRequest) (args : Args) (s s1 : σ)
    (result : Option SearchResult) (err : GoError)
    (hcall : e.invoke m ctx args s = some ((result, some err), s1)) :
    ∃ werr, t.invoke ctx req args s = some (.returned none none (some werr), s1) ∧
      werr.Unwrap = some err ∧ werr.Error = errorLead t.Name ++ err.Error ∧
      (m ≠ .ScrapeWebpage → containsText werr.Error t.Name) := by
  obtain ⟨m1, hm1, hinv⟩ :=
    registerTools_invoke env e t (mem_registerTools_of_mem_main env e hsel t ht)
  rw [hm] at hm1
  cases hm1
  refine ⟨Errorf (errorLead t.Name) err, ?_, rfl, rfl, ?_⟩
  · rw [hinv, hcall]
    cases result <;> rfl
  · intro hsearch
    have hne := name_ne_scrape_of_bound hm hsearch
    show containsText (errorLead t.Name ++ err.Error) t.Name
    unfold errorLead
    rw [if_neg hne, String.append_assoc]
    exact containsText_lead _ _

/-- C3 (the code at a failing input): in the run `sampleBoth` the engine's
`ScrapeWebpage` fails with the error `boom` on an empty URL; the
`webpage_scrape` handler returns no result and an error that unwraps to `boom`,
whose message is `scraping failed: boom` and does not contain the tool name
`webpage_scrape`. -/
theorem scrape_error_omits_tool_name :
    sampleScrapeTool ∈ (main sampleBoth).tools ∧
      sampleScrapeTool.Name = "webpage_scrape" ∧
      sampleSerper.invoke .ScrapeWebpage ⟨7⟩ (.scrape ⟨""⟩) [] =
        some ((none, some (.base "boom")),
          [⟨"serper", .ScrapeWebpage, ⟨7⟩, .scrape ⟨""⟩⟩]) ∧
      sampleScrapeTool.invoke ⟨7⟩ ⟨"req"⟩ (.scrape ⟨""⟩) [] =
        some (.returned none none (some (.wrap "scraping failed: boom" (.base "boom"))),
          [⟨"serper", .ScrapeWebpage, ⟨7⟩, .scrape ⟨""⟩⟩]) ∧
      (GoError.wrap "scraping failed: boom" (.base "boom")).Unwrap = some (.base "boom") ∧
      ¬ containsText (GoError.wrap "scraping failed: boom" (.base "boom")).Error
          sampleScrapeTool.Name := by
  refine ⟨sampleScrapeTool_mem, rfl, rfl, rfl, rfl, ?_⟩
  decide

/-! ## Empty queries -/

/-- C5 (counterexample): `google_search` invoked with the empty query in the
run `sampleBoth` calls the engine's `Search` and returns its result; no error
is produced. -/
theorem empty_query_reaches_engine :
    sampleSearchTool ∈ (main sampleBoth).tools ∧
      (SearchParams.mk "" []).query = "" ∧
      sampleSearchTool.invoke ⟨7⟩ ⟨"req"⟩ (.search ⟨"", []⟩) [] =
        some (.returned (some { Content := [.TextContent "\"ok\""] }) none none,
          [⟨"serper", .Search, ⟨7⟩, .search ⟨"", []⟩⟩]) :=
  ⟨sampleSearchTool_mem, rfl, rfl⟩

/-- C5 (amended): a published search tool invoked with the empty query makes
exactly one call of its bound engine method, with the parameters unchanged, and
adds no check of its own: it returns that call's error wrapped as
`<tool name> failed: ...` when the call fails, and the serialised data when the
call returns a result. -/
theorem empty_query_forwarded_once {R : Type} (env : Env (List Call) R)
    (name version : String) (supports : OperationKind → Bool)
    (reply : Method → Context → Args → MethodReturn)
    (hsel : selectedEngine env = some (recordingEngine name version supports reply))
    (t : Tool (List Call)) (ht : t ∈ (main env).tools)
    (m : Method) (hm : boundMethod t.Name = some m) (hsearch : m ≠ .ScrapeWebpage)
    (ctx : Context) (req : CallToolRequest) (options : List (String × String))
    (log : List Call) :
    ∃ out, t.invoke ctx req (.search { query := "", options := options }) log =
        some (out, log ++ [⟨name, m, ctx, .search { query := "", options := options }⟩]) ∧
      (∀ e, (reply m ctx (.search { query := "", options := options })).2 = some e →
        out = .returned none none (some (Errorf (t.Name ++ " failed: ") e))) ∧
      (∀ r, reply m ctx (.search { query := "", options := options }) = (some r, none) →
        out = .returned
          (some { Content := [.TextContent (env.MarshalIndent r.Data "" "  ").1] })
          none none) := by
  obtain ⟨m1, hm1, hinv⟩ :=
    registerTools_invoke env _ t (mem_registerTools_of_mem_main env _ hsel t ht)
  rw [hm] at hm1
  cases hm1
  have hne := name_ne_scrape_of_bound hm hsearch
  have htk : m.takes (.search { query := "", options := options }) = true := by
    cases m <;> first | rfl | exact absurd rfl hsearch
  refine ⟨respond env t.Name (reply m ctx (.search { query := "", options := options })),
    ?_, ?_, ?_⟩
  · rw [hinv, recordingEngine_invoke, if_pos htk]
    rfl
  · intro e he
    rcases hr : reply m ctx (.search { query := "", options := options }) with ⟨res, er⟩
    rw [hr] at he
    simp only at he
    subst he
    simp [respond, errorLead, hne]
  · intro r hr
    rw [hr]
    rfl

/-- Witness of C5 (amended): `google_search` in the run `sampleBoth` with the
empty query. -/
theorem empty_query_forwarded_once_witness :
    selectedEngine sampleBoth =
        some (recordingEngine "serper" "1.0.0"
          (fun k => k == .WebSearch || k == .WebpageScrape) sampleReply) ∧
      sampleSearchTool ∈ (main sampleBoth).tools ∧
      boundMethod sampleSearchTool.Name = some .Search ∧
      Method.Search ≠ Method.ScrapeWebpage ∧
      ∃ out, sampleSearchTool.invoke ⟨7⟩ ⟨"req"⟩ (.search { query := "", options := [] }) [] =
          some (out, [] ++ [⟨"serper", .Search, ⟨7⟩, .search { query := "", options := [] }⟩]) ∧
        (∀ e, (sampleReply .Search ⟨7⟩ (.search { query := "", options := [] })).2 = some e →
          out = .returned none none
            (some (Errorf (sampleSearchTool.Name ++ " failed: ") e))) ∧
        (∀ r, sampleReply .Search ⟨7⟩ (.search { query := "", options := [] }) = (some r, none) →
          out = .returned
            (some { Content := [.TextContent (sampleBoth.MarshalIndent r.Data "" "  ").1] })
            none none) :=
  ⟨rfl, sampleSearchTool_mem, by decide, by decide,
    empty_query_forwarded_once sampleBoth "serper" "1.0.0"
      (fun k => k == .WebSearch || k == .WebpageScrape) sampleReply rfl
      sampleSearchTool sampleSearchTool_mem .Search (by decide) (by decide)
      ⟨7⟩ ⟨"req"⟩ [] []⟩

/-! ## Result or error -/

/-- C10: when the bound method returns `(result, err)` with a non-nil result
whenever the error is nil, the handler returns normally, with an error exactly
when the method returned one and with exactly one of result and error; and if
serialising the data fails (with nil bytes, as `json.MarshalIndent` returns on
every error), the failure is dropped: the handler returns a result whose one
text item is the empty string, and a nil error. -/
theorem handler_error_iff_method_error {σ R : Type} (env : Env σ R) (e : Engine σ)
    (hsel : selectedEngine env = some e) (t : Tool σ) (ht : t ∈ (main env).tools)
    (m : Method) (hm : boundMethod t.Name = some m)
    (ctx : Context) (req : CallToolRequest) (args : Args) (s s1 : σ)
    (result : Option SearchResult) (err : Option GoError)
    (hcall : e.invoke m ctx args s = some ((result, err), s1))
    (hnonnil : err = none → result ≠ none) :
    ∃ res herr, t.invoke ctx req args s = some (.returned res none herr, s1) ∧
      (herr ≠ none ↔ err ≠ none) ∧
      (res ≠ none ↔ herr = none) ∧
      (∀ r, result = some r → err = none →
        (env.MarshalIndent r.Data "" "  ").2 ≠ none →
        (env.MarshalIndent r.Data "" "  ").1 = "" →
        res = some { Content := [.TextContent ""] } ∧ herr = none) := by
  obtain ⟨m1, hm1, hinv⟩ :=
    registerTools_invoke env e t (mem_registerTools_of_mem_main env e hsel t ht)
  rw [hm] at hm1
  cases hm1
  cases err with
  | some er =>
    refine ⟨none, some (Errorf (errorLead t.Name) er), ?_, by simp, by simp, ?_⟩
    · rw [hinv, hcall]
      cases result <;> rfl
    · intro r _ h
      cases h
  | none =>
    cases result with
    | none => exact absurd rfl (hnonnil rfl)
    | some r =>
      refine ⟨some { Content := [.TextContent (env.MarshalIndent r.Data "" "  ").1] },
        none, ?_, by simp, by simp, ?_⟩
      · rw [hinv, hcall]
        rfl
      · intro r1 hr _ _ hnil
        cases hr
        rw [hnil]
        exact ⟨rfl, rfl⟩

/-- Witness of C10: `google_search` in the run `sampleBoth` on a query whose
result data cannot be serialised. -/
theorem handler_error_iff_method_error_witness :
    selectedEngine sampleBoth = some sampleSerper ∧
      sampleSearchTool ∈ (main sampleBoth).tools ∧
      boundMethod sampleSearchTool.Name = some .Search ∧
      sampleSerper.invoke .Search ⟨7⟩ (.search ⟨"chan", []⟩) [] =
        some ((some ⟨.chan, "serper", "1.0.0"⟩, none),
          [⟨"serper", .Search, ⟨7⟩, .search ⟨"chan", []⟩⟩]) ∧
      ((none : Option GoError) = none →
        (some ⟨.chan, "serper", "1.0.0"⟩ : Option SearchResult) ≠ none) ∧
      ∃ res herr, sampleSearchTool.invoke ⟨7⟩ ⟨"req"⟩ (.search ⟨"chan", []⟩) [] =
          some (.returned res none herr,
            [⟨"serper", .Search, ⟨7⟩, .search ⟨"chan", []⟩⟩]) ∧
        (herr ≠ none ↔ (none : Option GoError) ≠ none) ∧
        (res ≠ none ↔ herr = none) ∧
        (∀ r, (some ⟨.chan, "serper", "1.0.0"⟩ : Option SearchResult) = some r →
          (none : Option GoError) = none →
          (sampleBoth.MarshalIndent r.Data "" "  ").2 ≠ none →
          (sampleBoth.MarshalIndent r.Data "" "  ").1 = "" →
          res = some { Content := [.TextContent ""] } ∧ herr = none) :=
  ⟨rfl, sampleSearchTool_mem, by decide, rfl, fun _ h => Option.noConfusion h,
    handler_error_iff_method_error sampleBoth sampleSerper rfl sampleSearchTool
      sampleSearchTool_mem .Search (by decide) ⟨7⟩ ⟨"req"⟩ (.search ⟨"chan", []⟩) []
      [⟨"serper", .Search, ⟨7⟩, .search ⟨"chan", []⟩⟩]
      (some ⟨.chan, "serper", "1.0.0"⟩) none rfl (fun _ h => Option.noConfusion h)⟩

end MetaSearchMCP
